import Mathlib

/-!
Verification development for the Adaptive-IoT-Traffic-Control repository.

Shallow embedding of the core JavaScript modules:
  - src/js/controller.js  (AdaptiveController)
  - src/js/simulator.js   (Simulator)
  - src/unnamed/part_002  (VirtualSensor)

Modelling conventions:
  - JavaScript numbers are embedded as exact rationals.  The programs under
    study only perform field arithmetic, floors, min/max and comparisons on
    values small enough that IEEE-754 doubles behave exactly like rationals
    on every input considered here.
  - A JavaScript object used as a map is embedded as an association list
    in key-insertion order, since key enumeration order is observable
    behaviour of the code.
  - Randomness (Math.random inside the Gaussian generator) and the wall
    clock (Date.now, getHours) are injected as explicit parameters.
  - A thrown exception is embedded as an explicit error value; when the
    code mutates state before throwing, the embedding returns the mutated
    state together with the error flag, mirroring what the caller of the
    JavaScript code observes on its retained object reference.
-/

abbrev Lane := String

/-- Configuration record of AdaptiveController (controller.js lines 22-27). -/
structure ControllerConfig where
  cycleLength : ℚ
  minGreen : ℚ
  maxGreen : ℚ
  yellowTime : ℚ
  allRedTime : ℚ
deriving DecidableEq, Repr

/-- A partial configuration: absent fields are the JavaScript value
undefined (controller.js updateConfig checks each field against undefined). -/
structure PartialConfig where
  cycleLength : Option ℚ := none
  minGreen : Option ℚ := none
  maxGreen : Option ℚ := none
  yellowTime : Option ℚ := none
  allRedTime : Option ℚ := none
deriving DecidableEq, Repr

/-- The fixed lane array of the controller, controller.js line 28:
this.lanes = the four compass directions. -/
def defaultLanes : List Lane := ["north", "south", "east", "west"]

/-- Embedding of the JavaScript defaulting idiom x || d used in the
AdaptiveController and VirtualSensor constructors: an absent value, or the
falsy number 0, is replaced by the default. -/
def jsOrDefault (v : Option ℚ) (d : ℚ) : ℚ :=
  match v with
  | none => d
  | some x => if x = 0 then d else x

/-- Controller state: the five config fields plus the lanes array, which is
mutable state of the object (it is sorted in place by redistribute). -/
structure ControllerState where
  config : ControllerConfig
  lanes : List Lane
deriving DecidableEq, Repr

/-- validateConfig (controller.js lines 162-180) as a Boolean: true when
no exception is thrown. -/
def validateConfig (lanes : List Lane) (cfg : ControllerConfig) : Bool :=
  if cfg.minGreen ≥ cfg.maxGreen then false
  else
    if (lanes.length : ℚ) * (cfg.yellowTime + cfg.allRedTime) +
        (lanes.length : ℚ) * cfg.minGreen > cfg.cycleLength then false
    else
      if cfg.cycleLength ≤ 0 ∨ cfg.minGreen < 0 ∨ cfg.maxGreen < 0 then false
      else true

/-- Constructor of AdaptiveController (controller.js lines 22-32): apply
the || defaults, then validate; none models a thrown exception. -/
def mkAdaptiveController (c : PartialConfig) : Option ControllerState :=
  let cfg : ControllerConfig :=
    { cycleLength := jsOrDefault c.cycleLength 60
      minGreen := jsOrDefault c.minGreen 10
      maxGreen := jsOrDefault c.maxGreen 60
      yellowTime := jsOrDefault c.yellowTime 3
      allRedTime := jsOrDefault c.allRedTime 2 }
  if validateConfig defaultLanes cfg then
    some { config := cfg, lanes := defaultLanes }
  else none

/-- The default configuration produced by an argument-free constructor call. -/
def defaultConfig : ControllerConfig :=
  { cycleLength := 60, minGreen := 10, maxGreen := 60, yellowTime := 3, allRedTime := 2 }

/-- Property access densities[k] on an object embedded as an association
list.  The default 0 is only reached for a key the object does not carry
(the JavaScript value there would be undefined); every theorem below either
guarantees the key is present or does not depend on the value. -/
def dLookup : List (Lane × ℚ) → Lane → ℚ
  | [], _ => 0
  | p :: rest, k => if p.1 = k then p.2 else dLookup rest k

/-- Assignment m[k] = v to a key already carried by the object: the value
is replaced, the key keeps its position in enumeration order. -/
def aUpdate (m : List (Lane × ℚ)) (k : Lane) (v : ℚ) : List (Lane × ℚ) :=
  m.map (fun p => if p.1 = k then (k, v) else p)

/-- Math.sign restricted to the rationals. -/
def qsign (x : ℚ) : ℚ := if 0 < x then 1 else if x < 0 then -1 else 0

/-- One iteration of the redistribution loop body (controller.js lines
116-127); the early break once diff reaches 0 is modelled by the loop body
becoming the identity from that point on. -/
def redistStep (cfg : ControllerConfig) (acc : List (Lane × ℚ) × ℚ) (lane : Lane) :
    List (Lane × ℚ) × ℚ :=
  if acc.2 = 0 then acc
  else
    let adjustment := qsign acc.2
    let newValue := dLookup acc.1 lane + adjustment
    if cfg.minGreen ≤ newValue ∧ newValue ≤ cfg.maxGreen then
      (aUpdate acc.1 lane newValue, acc.2 - adjustment)
    else acc

/-- Stable insertion of a lane into a list already sorted by strictly
descending density: the inserted lane, which occurs earlier in the original
array, goes in front of lanes of equal density, matching the stable
Array.prototype.sort with comparator (a, b) => densities[b] - densities[a]. -/
def insertDesc (d : List (Lane × ℚ)) (x : Lane) : List Lane → List Lane
  | [] => [x]
  | y :: ys => if dLookup d x ≥ dLookup d y then x :: y :: ys else y :: insertDesc d x ys

/-- Stable sort of the lane array by descending density (controller.js
line 113).  In the source this sorts this.lanes in place. -/
def sortByDensityDesc (d : List (Lane × ℚ)) (lanes : List Lane) : List Lane :=
  lanes.foldr (insertDesc d) []

/-- redistribute (controller.js lines 105-130).  Returns the adjusted green
times together with the controller's lanes array after the call: the early
return on diff = 0 happens before the in-place sort, otherwise the lanes
array has been permuted by it. -/
def redistribute (cfg : ControllerConfig) (densities : List (Lane × ℚ))
    (greenTimes : List (Lane × ℚ)) (targetSum : ℚ) (lanes : List Lane) :
    List (Lane × ℚ) × List Lane :=
  let currentSum := (greenTimes.map (fun p => p.2)).sum
  let diff := targetSum - currentSum
  if diff = 0 then (greenTimes, lanes)
  else
    let sortedLanes := sortByDensityDesc densities lanes
    ((sortedLanes.foldl (redistStep cfg) (greenTimes, diff)).1, sortedLanes)

/-- The available green time, cycleLength - laneCount * (yellow + allRed)
(controller.js lines 69-71). -/
def availableTimeOf (cfg : ControllerConfig) (laneCount : ℕ) : ℚ :=
  cfg.cycleLength - (laneCount : ℚ) * (cfg.yellowTime + cfg.allRedTime)

/-- Step 3 of computeGreenTimes (controller.js lines 81-87): floor the raw
proportional share and clamp it into [minGreen, maxGreen]. -/
def constrainedAlloc (cfg : ControllerConfig) (lanes : List Lane)
    (densities : List (Lane × ℚ)) (total availableTime : ℚ) : List (Lane × ℚ) :=
  lanes.map (fun lane =>
    (lane, max cfg.minGreen (min cfg.maxGreen
      ((⌊dLookup densities lane / total * availableTime⌋ : ℤ) : ℚ))))

/-- computeGreenTimes (controller.js lines 50-91).  The input is already an
object, so the only validation in the source (the typeof check on line 52)
passes; no key-set or numeric check exists.  Returns the allocation object
and the lanes array after the call. -/
def computeGreenTimes (cfg : ControllerConfig) (lanes : List Lane)
    (densities : List (Lane × ℚ)) : List (Lane × ℚ) × List Lane :=
  let total := (densities.map (fun p => p.2)).sum
  if total = 0 then (lanes.map (fun lane => (lane, cfg.minGreen)), lanes)
  else
    let availableTime := availableTimeOf cfg lanes.length
    redistribute cfg densities
      (constrainedAlloc cfg lanes densities total availableTime) availableTime lanes

/-- updateConfig (controller.js lines 138-156): every defined field of the
partial config is assigned onto the object, then validateConfig runs; a
validation failure throws, but the assignments have already happened, so
the mutated state is what the caller's object reference holds afterwards.
The Boolean is true when the exception was thrown. -/
def updateConfig (st : ControllerState) (nc : PartialConfig) : ControllerState × Bool :=
  let cfg : ControllerConfig :=
    { cycleLength := nc.cycleLength.getD st.config.cycleLength
      minGreen := nc.minGreen.getD st.config.minGreen
      maxGreen := nc.maxGreen.getD st.config.maxGreen
      yellowTime := nc.yellowTime.getD st.config.yellowTime
      allRedTime := nc.allRedTime.getD st.config.allRedTime }
  ({ st with config := cfg }, ! validateConfig st.lanes cfg)

/-- _computeSignals (simulator.js lines 149-162): every key of the green
time object starts RED, then the lane selected by the reduce over the keys
(keep a only when strictly greater, otherwise take b) is set GREEN.  The
empty-object case (where the JavaScript reduce would throw) is mapped to
the empty snapshot; every call site passes a non-empty object. -/
def computeSignals (greenTimes : List (Lane × ℚ)) : List (Lane × String) :=
  match greenTimes.map (fun p => p.1) with
  | [] => []
  | k :: ks =>
    let maxLane := ks.foldl
      (fun a b => if dLookup greenTimes a > dLookup greenTimes b then a else b) k
    (k :: ks).map (fun lane => (lane, if lane = maxLane then "GREEN" else "RED"))

/-- The mutable fields of the Simulator object (simulator.js lines 24-38)
that the playback claims are about.  timerActive embeds whether an interval
timer is installed (intervalId being set). -/
structure SimState where
  isPaused : Bool
  isRunning : Bool
  speedMultiplier : ℚ
  cycleCount : ℕ
  simulationDurationSeconds : ℚ
  simulationStartTime : Option ℚ
  elapsedTimeSeconds : ℚ
  pausedAtSeconds : ℚ
  timerActive : Bool
deriving DecidableEq, Repr

/-- The state built by the Simulator constructor. -/
def initialSimState : SimState :=
  { isPaused := false, isRunning := false, speedMultiplier := 1, cycleCount := 0,
    simulationDurationSeconds := 0, simulationStartTime := none,
    elapsedTimeSeconds := 0, pausedAtSeconds := 0, timerActive := false }

/-- The result record a tick hands to the dashboard (simulator.js lines
119-129); the latency field (Math.random) and wall-clock timestamp are
outside the claims and omitted. -/
structure TickRecord where
  cycleCount : ℕ
  densities : List (Lane × ℚ)
  greenTimes : List (Lane × ℚ)
  signals : List (Lane × String)
  elapsedTime : ℚ
  totalDuration : ℚ
deriving DecidableEq, Repr

/-- stop (simulator.js lines 195-200). -/
def simStop (st : SimState) : SimState :=
  { st with timerActive := false, isRunning := false, isPaused := false }

/-- tick (simulator.js lines 89-140).  The wall clock (Date.now) and the
densities the sensors would produce are injected; the controller state is
threaded explicitly, since computeGreenTimes can permute the lanes array.
Returns the new simulator state, the controller lanes after the call, and
the record emitted to the dashboard, if any. -/
def tick (cfg : ControllerConfig) (ctrlLanes : List Lane) (st : SimState)
    (nowMs : ℚ) (densities : List (Lane × ℚ)) :
    SimState × List Lane × Option TickRecord :=
  if st.isPaused ∨ ¬ st.isRunning then (st, ctrlLanes, none)
  else
    let realElapsedMs := nowMs - st.simulationStartTime.getD 0
    let elapsed := realElapsedMs / 1000 * st.speedMultiplier
    let st1 := { st with elapsedTimeSeconds := elapsed }
    if 0 < st1.simulationDurationSeconds ∧
        st1.simulationDurationSeconds ≤ st1.elapsedTimeSeconds then
      (simStop st1, ctrlLanes, none)
    else
      let result := computeGreenTimes cfg ctrlLanes densities
      let signals := computeSignals result.1
      let record : TickRecord :=
        { cycleCount := st1.cycleCount, densities := densities,
          greenTimes := result.1, signals := signals,
          elapsedTime := st1.elapsedTimeSeconds,
          totalDuration := st1.simulationDurationSeconds }
      ({ st1 with cycleCount := st1.cycleCount + 1 }, result.2, some record)

/-- start (simulator.js lines 46-76): a no-op when already running unpaused;
when paused it only clears the paused flag (it does not touch
simulationStartTime); otherwise it initializes a fresh run and installs the
timer. -/
def simStart (st : SimState) (durationSeconds : ℚ) (nowMs : ℚ) : SimState :=
  if st.isRunning ∧ ¬ st.isPaused then st
  else if st.isPaused then { st with isPaused := false }
  else
    { st with
      isRunning := true
      isPaused := false
      simulationDurationSeconds := durationSeconds
      simulationStartTime := some nowMs
      cycleCount := 0
      elapsedTimeSeconds := 0
      pausedAtSeconds := 0
      timerActive := true }

/-- pause (simulator.js lines 168-174). -/
def simPause (st : SimState) : SimState :=
  if ¬ st.isRunning then st
  else { st with isPaused := true, pausedAtSeconds := st.elapsedTimeSeconds }

/-- resume (simulator.js lines 180-189): rebases simulationStartTime so the
wall-clock pause gap is excluded from subsequent elapsed-time computations. -/
def simResume (st : SimState) (nowMs : ℚ) : SimState :=
  if ¬ st.isRunning ∨ ¬ st.isPaused then st
  else
    { st with
      isPaused := false
      simulationStartTime := some (nowMs - st.pausedAtSeconds * 1000) }

/-- step (simulator.js lines 250-256): guarded to the paused-while-running
state, then delegates to tick. -/
def step (cfg : ControllerConfig) (ctrlLanes : List Lane) (st : SimState)
    (nowMs : ℚ) (densities : List (Lane × ℚ)) :
    SimState × List Lane × Option TickRecord :=
  if ¬ st.isPaused ∨ ¬ st.isRunning then (st, ctrlLanes, none)
  else tick cfg ctrlLanes st nowMs densities

/-- The mutable fields of a VirtualSensor (part_002).  smoothedDensity is
none while the JavaScript property is still undefined (it is only created
by the first generateDensity call). -/
structure SensorState where
  lastDensity : ℚ
  emaCoefficient : ℚ
  overrideDensity : Option ℚ
  smoothedDensity : Option ℚ
deriving DecidableEq, Repr

/-- Optional constructor arguments of VirtualSensor. -/
structure SensorConfig where
  initialDensity : Option ℚ := none
  emaCoefficient : Option ℚ := none
deriving DecidableEq, Repr

/-- VirtualSensor constructor (part_002 lines 19-34): || defaults, then the
lane check and the coefficient range check; none models a throw. -/
def mkVirtualSensor (lane : Lane) (c : SensorConfig) : Option SensorState :=
  let st : SensorState :=
    { lastDensity := jsOrDefault c.initialDensity 50
      emaCoefficient := jsOrDefault c.emaCoefficient 0.7
      overrideDensity := none, smoothedDensity := none }
  if lane ∉ (["north", "south", "east", "west"] : List Lane) then none
  else if st.emaCoefficient < 0 ∨ st.emaCoefficient > 1 then none
  else some st

/-- generateDensity (part_002 lines 43-83).  The hour extracted from the
timestamp and the Gaussian draw of _gaussianRandom(50, 15) are injected.
Returns the reading and the updated sensor state. -/
def generateDensity (st : SensorState) (hour : ℤ) (gauss : ℚ) : ℚ × SensorState :=
  let peakFactor : ℚ :=
    if (7 ≤ hour ∧ hour ≤ 9) ∨ (17 ≤ hour ∧ hour ≤ 19) then 1.5
    else if 22 ≤ hour ∨ hour ≤ 5 then 0.3
    else 1
  let computedPercent := max 0 (min 100 (gauss * peakFactor))
  let targetDensity := st.overrideDensity.getD computedPercent
  let smoothed :=
    match st.smoothedDensity with
    | none => targetDensity
    | some s => s + st.emaCoefficient * (targetDensity - s)
  let finalDensity := max 0 (min 100 smoothed)
  (finalDensity,
    { st with smoothedDensity := some smoothed, lastDensity := finalDensity })

/-- setDensity (part_002 lines 92-100): clamp, store as override, sync
lastDensity, and sync smoothedDensity only if it already exists. -/
def setDensity (st : SensorState) (value : ℚ) : SensorState :=
  let percent := max 0 (min 100 value)
  { st with
    overrideDensity := some percent
    lastDensity := percent
    smoothedDensity := st.smoothedDensity.map (fun _ => percent) }

/-- reset (part_002 lines 106-109): exactly the two assignments in the
source; the smoothedDensity property is not touched. -/
def sensorReset (st : SensorState) : SensorState :=
  { st with lastDensity := 50, overrideDensity := none }

/-- A valid configuration with a longer cycle (available time 60 rather
than 40), used to exhibit history-dependent allocations: with it, a demand
vector can leave the clamped sum one below the available time, so exactly
one lane of a tied pair receives the extra unit. -/
def widerConfig : ControllerConfig :=
  { cycleLength := 80, minGreen := 10, maxGreen := 60, yellowTime := 3, allRedTime := 2 }

/-- C1: the claim asserts that for every valid configuration and non-zero
demand vector the allocation sums exactly to availableTime.  The code
violates it: redistribution makes a single pass over the lanes, adjusting
each lane by at most one unit (controller.js lines 116-127), although its
own comments promise to iteratively adjust until balanced.  At the default
configuration with demands north 100 and 0 elsewhere, the clamped times are
(40, 10, 10, 10), availableTime is 40, and the single pass only lowers
north to 39, so the returned sum is 69, not 40. -/
theorem c1_sum_deviates_from_available_time_at_failing_input :
    ((computeGreenTimes defaultConfig defaultLanes
        [("north", 100), ("south", 0), ("east", 0), ("west", 0)]).1.map
          (fun p => p.2)).sum = 69 ∧
    availableTimeOf defaultConfig defaultLanes.length = 40 ∧
    ((69 : ℚ) ≠ 40) := by
  refine ⟨?_, ?_, by norm_num⟩
  · norm_num +decide [computeGreenTimes, redistribute, redistStep, sortByDensityDesc,
      insertDesc, constrainedAlloc, availableTimeOf, dLookup, aUpdate, qsign,
      defaultConfig, defaultLanes]
  · norm_num [availableTimeOf, defaultConfig, defaultLanes]

/-- C3: the claim asserts updateConfig is atomic, leaving the prior valid
configuration untouched when validation fails.  The code assigns every
provided field onto the object first and only then validates (controller.js
lines 138-156), so after a rejected update the mutated configuration
remains on the object.  At the default configuration, updating minGreen to
100 throws (minGreen must be less than maxGreen) yet leaves minGreen = 100
in place; a valid update (yellowTime 1) is applied without error. -/
theorem c3_update_config_mutates_before_validation :
    (updateConfig { config := defaultConfig, lanes := defaultLanes }
        { minGreen := some 100 }).2 = true ∧
    (updateConfig { config := defaultConfig, lanes := defaultLanes }
        { minGreen := some 100 }).1.config =
      { defaultConfig with minGreen := 100 } ∧
    ({ defaultConfig with minGreen := 100 } : ControllerConfig) ≠ defaultConfig ∧
    (updateConfig { config := defaultConfig, lanes := defaultLanes }
        { yellowTime := some 1 }).2 = false ∧
    (updateConfig { config := defaultConfig, lanes := defaultLanes }
        { yellowTime := some 1 }).1.config =
      { defaultConfig with yellowTime := 1 } := by
  refine ⟨?_, ?_, ?_, ?_, ?_⟩ <;>
    norm_num +decide [updateConfig, validateConfig, defaultConfig, defaultLanes]

/-- C4: the claim asserts that step executed in the Paused-while-Running
state runs exactly one full cycle (emitting one record and incrementing the
cycle counter).  The code cannot: step delegates to tick (simulator.js line
255), whose first guard returns immediately whenever isPaused is set
(simulator.js line 90).  Hence step never performs a cycle in any state: it
always returns the state, the lanes and no record unchanged. -/
theorem c4_step_never_performs_a_cycle (cfg : ControllerConfig)
    (ctrlLanes : List Lane) (st : SimState) (nowMs : ℚ)
    (densities : List (Lane × ℚ)) :
    step cfg ctrlLanes st nowMs densities = (st, ctrlLanes, none) := by
  by_cases hp : st.isPaused <;> by_cases hr : st.isRunning <;>
    simp [step, tick, hp, hr]

/-- C5: the claim asserts that start called while Paused is equivalent to
resume, in particular that wall-clock time spent paused is not counted
toward elapsed simulated time.  The code disagrees: resume rebases
simulationStartTime past the pause gap (simulator.js line 186), but the
paused branch of start only clears the isPaused flag (lines 53-57).
Starting at t = 0 ms, pausing, and continuing at t = 25000 ms: after the
next tick at t = 26000 ms the resume path reports 1 elapsed second while
the start path reports 26, counting the whole pause gap. -/
theorem c5_start_from_paused_counts_the_pause_gap :
    (tick defaultConfig defaultLanes
        (simResume (simPause (simStart initialSimState 0 0)) 25000) 26000
        [("north", 10), ("south", 10), ("east", 10), ("west", 10)]).1.elapsedTimeSeconds
      = 1 ∧
    (tick defaultConfig defaultLanes
        (simStart (simPause (simStart initialSimState 0 0)) 0 25000) 26000
        [("north", 10), ("south", 10), ("east", 10), ("west", 10)]).1.elapsedTimeSeconds
      = 26 ∧
    ((1 : ℚ) ≠ 26) := by
  refine ⟨?_, ?_, by norm_num⟩ <;>
    norm_num +decide [tick, simResume, simPause, simStart, simStop, initialSimState,
      computeGreenTimes, redistribute, redistStep, sortByDensityDesc, insertDesc,
      constrainedAlloc, availableTimeOf, dLookup, aUpdate, qsign, computeSignals,
      defaultConfig, defaultLanes]

/-- C8: the claim asserts that reset discards the smoothing state so the
next sample reinitializes the accumulator.  The code only resets
lastDensity and the override (part_002 lines 106-109); the smoothedDensity
property survives.  Failing run: a fresh sensor samples 80 (accumulator
becomes 80), reset is called, and a later sample whose target is 20 returns
the blend 80 + 0.7 * (20 - 80) = 38 instead of the fresh target 20. -/
theorem c8_reset_retains_smoothing_state :
    mkVirtualSensor "north" {} = some
      { lastDensity := 50, emaCoefficient := 7/10,
        overrideDensity := none, smoothedDensity := none } ∧
    (sensorReset (generateDensity
        { lastDensity := 50, emaCoefficient := 7/10,
          overrideDensity := none, smoothedDensity := none } 12 80).2).smoothedDensity
      = some 80 ∧
    (sensorReset (generateDensity
        { lastDensity := 50, emaCoefficient := 7/10,
          overrideDensity := none, smoothedDensity := none } 12 80).2).overrideDensity
      = none ∧
    (sensorReset (generateDensity
        { lastDensity := 50, emaCoefficient := 7/10,
          overrideDensity := none, smoothedDensity := none } 12 80).2).lastDensity
      = 50 ∧
    (generateDensity (sensorReset (generateDensity
        { lastDensity := 50, emaCoefficient := 7/10,
          overrideDensity := none, smoothedDensity := none } 12 80).2) 12 20).1
      = 38 ∧
    ((38 : ℚ) ≠ 20) := by
  refine ⟨?_, ?_, ?_, ?_, ?_, by norm_num⟩ <;>
    norm_num +decide [mkVirtualSensor, generateDensity, sensorReset, jsOrDefault]

/-- C9: the claim asserts the allocation engine is stateless and that the
lane enumeration order is the same fixed order before and after every call.
The code sorts this.lanes in place inside redistribute (controller.js line
113), so a call permutes the stored order, and because the stable sort
breaks density ties by the current stored order, a later call with tied
demands returns different per-lane values depending on that history: after
a south-heavy call, the demand vector (34, 34, 27, 25) gives the one spare
second to south instead of north. -/
theorem c9_lanes_mutated_and_allocation_history_dependent :
    validateConfig defaultLanes widerConfig = true ∧
    (computeGreenTimes widerConfig defaultLanes
        [("north", 0), ("south", 100), ("east", 0), ("west", 0)]).2 =
      ["south", "north", "east", "west"] ∧
    (["south", "north", "east", "west"] : List Lane) ≠ defaultLanes ∧
    dLookup (computeGreenTimes widerConfig defaultLanes
        [("north", 34), ("south", 34), ("east", 27), ("west", 25)]).1 "north" = 18 ∧
    dLookup (computeGreenTimes widerConfig
        (computeGreenTimes widerConfig defaultLanes
          [("north", 0), ("south", 100), ("east", 0), ("west", 0)]).2
        [("north", 34), ("south", 34), ("east", 27), ("west", 25)]).1 "north" = 17 ∧
    ((18 : ℚ) ≠ 17) := by
  refine ⟨?_, ?_, ?_, ?_, ?_, by norm_num⟩ <;>
    norm_num +decide [computeGreenTimes, redistribute, redistStep, sortByDensityDesc,
      insertDesc, constrainedAlloc, availableTimeOf, dLookup, aUpdate, qsign,
      validateConfig, widerConfig, defaultLanes]

/-- C10: constructor defaulting via the JavaScript || operator treats a
passed 0 as absent: a VirtualSensor built with emaCoefficient 0 succeeds
and holds 0.7, and an AdaptiveController built with every field 0 holds the
full default configuration (and passes validation on those defaults). -/
theorem c10_zero_config_values_replaced_by_defaults :
    mkVirtualSensor "north" { emaCoefficient := some 0 } = some
      { lastDensity := 50, emaCoefficient := 7/10,
        overrideDensity := none, smoothedDensity := none } ∧
    mkAdaptiveController
        { cycleLength := some 0, minGreen := some 0, maxGreen := some 0,
          yellowTime := some 0, allRedTime := some 0 } = some
      { config := defaultConfig, lanes := defaultLanes } ∧
    defaultConfig.minGreen ≠ 0 ∧ ((7/10 : ℚ) ≠ 0) := by
  refine ⟨?_, ?_, ?_, by norm_num⟩ <;>
    norm_num +decide [mkVirtualSensor, mkAdaptiveController, jsOrDefault,
      validateConfig, defaultConfig, defaultLanes]

/-- C7 counterexample: the claim asserts computeGreenTimes fails with
InvalidInput whenever the reading keys do not exactly match the lane set
and returns no allocation on such inputs.  The code only checks that the
argument is an object (controller.js lines 52-54); with an extra key
"volume" it returns a normal allocation, the extra value having been summed
into the total demand. -/
theorem c7_mismatched_keys_still_return_allocation :
    (computeGreenTimes defaultConfig defaultLanes
        [("north", 10), ("south", 10), ("east", 10), ("west", 10), ("volume", 100)]).1 =
      [("north", 10), ("south", 10), ("east", 10), ("west", 10)] ∧
    ([("north", (10 : ℚ)), ("south", 10), ("east", 10), ("west", 10),
        ("volume", 100)].map Prod.fst) ≠ defaultLanes := by
  refine ⟨?_, by norm_num +decide [defaultLanes]⟩
  norm_num +decide [computeGreenTimes, redistribute, redistStep, sortByDensityDesc,
    insertDesc, constrainedAlloc, availableTimeOf, dLookup, aUpdate, qsign,
    defaultConfig, defaultLanes]

/-- C6 counterexample: the claim asserts ties are broken by lane
enumeration order, so with all four allocations equal the first enumerated
lane (north) would be the green one.  The reduce in _computeSignals keeps
the accumulator only on a strictly greater value (simulator.js lines
156-158), so on ties the later key wins and west is marked GREEN. -/
theorem c6_tie_not_broken_toward_first_lane :
    computeSignals [("north", 10), ("south", 10), ("east", 10), ("west", 10)] =
      [("north", "RED"), ("south", "RED"), ("east", "RED"), ("west", "GREEN")] ∧
    ([("north", (10 : ℚ)), ("south", 10), ("east", 10),
        ("west", 10)].map Prod.fst).head? = some "north" ∧
    (("west" : Lane) ≠ "north") := by
  refine ⟨?_, by norm_num, by norm_num +decide⟩
  norm_num +decide [computeSignals, dLookup]

/-- Updating a value never changes the key sequence of the object. -/
theorem aUpdate_keys (m : List (Lane × ℚ)) (k : Lane) (v : ℚ) :
    (aUpdate m k v).map Prod.fst = m.map Prod.fst := by
  induction m with
  | nil => rfl
  | cons p rest ih =>
    by_cases h : p.1 = k
    · simp [aUpdate, h] at ih ⊢
      exact ih
    · simp [aUpdate, h] at ih ⊢
      exact ih

/-- One redistribution step never changes the key sequence. -/
theorem redistStep_keys (cfg : ControllerConfig) (acc : List (Lane × ℚ) × ℚ)
    (lane : Lane) : ((redistStep cfg acc lane).1).map Prod.fst = acc.1.map Prod.fst := by
  by_cases h1 : acc.2 = 0
  · simp [redistStep, h1]
  · by_cases h2 : cfg.minGreen ≤ dLookup acc.1 lane + qsign acc.2 ∧
        dLookup acc.1 lane + qsign acc.2 ≤ cfg.maxGreen
    · simp [redistStep, h1, h2, aUpdate_keys]
    · simp [redistStep, h1, h2]

/-- The whole redistribution pass never changes the key sequence. -/
theorem foldl_redistStep_keys (cfg : ControllerConfig) :
    ∀ (ls : List Lane) (acc : List (Lane × ℚ) × ℚ),
      ((ls.foldl (redistStep cfg) acc).1).map Prod.fst = acc.1.map Prod.fst := by
  intro ls
  induction ls with
  | nil => intro acc; rfl
  | cons l rest ih =>
    intro acc
    rw [List.foldl_cons, ih, redistStep_keys]

/-- redistribute returns an object with the same key sequence it was given. -/
theorem redistribute_keys (cfg : ControllerConfig) (densities : List (Lane × ℚ))
    (g : List (Lane × ℚ)) (t : ℚ) (lanes : List Lane) :
    ((redistribute cfg densities g t lanes).1).map Prod.fst = g.map Prod.fst := by
  by_cases h : t - (g.map (fun p => p.2)).sum = 0
  · simp [redistribute, h]
  · simp [redistribute, h, foldl_redistStep_keys]

/-- The clamped allocation ranges over exactly the lanes array. -/
theorem constrainedAlloc_keys (cfg : ControllerConfig) (lanes : List Lane)
    (densities : List (Lane × ℚ)) (total avail : ℚ) :
    (constrainedAlloc cfg lanes densities total avail).map Prod.fst = lanes := by
  simp [constrainedAlloc, List.map_map, Function.comp_def]

/-- C7 amended: computeGreenTimes performs no key-set or numeric validation
(the source only rejects non-object inputs): for every reading object it
returns an allocation, and that allocation ranges over exactly the
configured lane array — extra keys are silently accepted (their values
entering the total demand, as the counterexample shows) and never cause an
InvalidInput failure. -/
theorem c7_amended_no_key_validation (cfg : ControllerConfig) (lanes : List Lane)
    (densities : List (Lane × ℚ)) :
    ((computeGreenTimes cfg lanes densities).1).map Prod.fst = lanes := by
  by_cases h : (densities.map (fun p => p.2)).sum = 0
  · simp [computeGreenTimes, h, List.map_map, Function.comp_def]
  · simp [computeGreenTimes, h, redistribute_keys, constrainedAlloc_keys]

/-- A configuration accepted by validateConfig has minGreen < maxGreen
(first check of the validator). -/
theorem validateConfig_min_lt_max {lanes : List Lane} {cfg : ControllerConfig}
    (h : validateConfig lanes cfg = true) : cfg.minGreen < cfg.maxGreen := by
  by_cases c : cfg.minGreen ≥ cfg.maxGreen
  · simp [validateConfig, c] at h
  · exact lt_of_not_ge c

/-- Values written by one redistribution step stay within the bounds the
step guard enforces, and untouched values are preserved. -/
theorem redistStep_bounds (cfg : ControllerConfig) (acc : List (Lane × ℚ) × ℚ)
    (lane : Lane)
    (h : ∀ p ∈ acc.1, cfg.minGreen ≤ p.2 ∧ p.2 ≤ cfg.maxGreen) :
    ∀ p ∈ (redistStep cfg acc lane).1, cfg.minGreen ≤ p.2 ∧ p.2 ≤ cfg.maxGreen := by
  by_cases h1 : acc.2 = 0
  · simpa [redistStep, h1] using h
  · by_cases h2 : cfg.minGreen ≤ dLookup acc.1 lane + qsign acc.2 ∧
        dLookup acc.1 lane + qsign acc.2 ≤ cfg.maxGreen
    · have hstep : (redistStep cfg acc lane).1 =
          aUpdate acc.1 lane (dLookup acc.1 lane + qsign acc.2) := by
        simp [redistStep, h1, h2]
      intro p hp
      rw [hstep] at hp
      simp only [aUpdate, List.mem_map] at hp
      obtain ⟨q, hq, hqp⟩ := hp
      by_cases hql : q.1 = lane
      · rw [if_pos hql] at hqp
        rw [← hqp]
        exact h2
      · rw [if_neg hql] at hqp
        rw [← hqp]
        exact h q hq
    · simpa [redistStep, h1, h2] using h

/-- Bounds are preserved across the whole redistribution pass. -/
theorem foldl_redistStep_bounds (cfg : ControllerConfig) :
    ∀ (ls : List Lane) (acc : List (Lane × ℚ) × ℚ),
      (∀ p ∈ acc.1, cfg.minGreen ≤ p.2 ∧ p.2 ≤ cfg.maxGreen) →
      ∀ p ∈ (ls.foldl (redistStep cfg) acc).1,
        cfg.minGreen ≤ p.2 ∧ p.2 ≤ cfg.maxGreen := by
  intro ls
  induction ls with
  | nil => intro acc h; exact h
  | cons l rest ih =>
    intro acc h
    rw [List.foldl_cons]
    exact ih _ (redistStep_bounds cfg acc l h)

/-- Every value of the clamped allocation lies in [minGreen, maxGreen],
for any total and available time, as long as minGreen ≤ maxGreen. -/
theorem constrainedAlloc_bounds (cfg : ControllerConfig) (lanes : List Lane)
    (densities : List (Lane × ℚ)) (total avail : ℚ)
    (hmm : cfg.minGreen ≤ cfg.maxGreen) :
    ∀ p ∈ constrainedAlloc cfg lanes densities total avail,
      cfg.minGreen ≤ p.2 ∧ p.2 ≤ cfg.maxGreen := by
  intro p hp
  simp only [constrainedAlloc, List.mem_map] at hp
  obtain ⟨lane, _, rfl⟩ := hp
  constructor
  · exact le_max_left _ _
  · exact max_le hmm (min_le_left _ _)

/-- redistribute preserves the per-value bounds of its input object. -/
theorem redistribute_bounds (cfg : ControllerConfig) (densities : List (Lane × ℚ))
    (g : List (Lane × ℚ)) (t : ℚ) (lanes : List Lane)
    (h : ∀ p ∈ g, cfg.minGreen ≤ p.2 ∧ p.2 ≤ cfg.maxGreen) :
    ∀ p ∈ (redistribute cfg densities g t lanes).1,
      cfg.minGreen ≤ p.2 ∧ p.2 ≤ cfg.maxGreen := by
  by_cases hd : t - (g.map (fun p => p.2)).sum = 0
  · simpa [redistribute, hd] using h
  · intro p hp
    simp only [redistribute, hd, if_neg] at hp
    exact foldl_redistStep_bounds cfg _ _ h p hp

/-- C2: for every configuration accepted by the validator and every demand
reading object, each per-lane value of the allocation computeGreenTimes
returns lies in [minGreen, maxGreen]; the same holds for the intermediate
clamped allocation of step 3 and for the zero-total fallback (which is the
first conjunct applied to the returned object in that case). -/
theorem c2_allocation_within_bounds (cfg : ControllerConfig) (lanes : List Lane)
    (densities : List (Lane × ℚ)) (h : validateConfig lanes cfg = true) :
    (∀ total avail : ℚ, ∀ p ∈ constrainedAlloc cfg lanes densities total avail,
      cfg.minGreen ≤ p.2 ∧ p.2 ≤ cfg.maxGreen) ∧
    (∀ p ∈ (computeGreenTimes cfg lanes densities).1,
      cfg.minGreen ≤ p.2 ∧ p.2 ≤ cfg.maxGreen) := by
  have hmm : cfg.minGreen ≤ cfg.maxGreen := le_of_lt (validateConfig_min_lt_max h)
  refine ⟨fun total avail => constrainedAlloc_bounds cfg lanes densities total avail hmm, ?_⟩
  by_cases hz : (densities.map (fun p => p.2)).sum = 0
  · intro p hp
    simp only [computeGreenTimes, hz, if_pos, List.mem_map] at hp
    obtain ⟨lane, _, rfl⟩ := hp
    exact ⟨le_refl _, hmm⟩
  · intro p hp
    simp only [computeGreenTimes, hz, if_neg] at hp
    exact redistribute_bounds cfg densities _ _ lanes
      (constrainedAlloc_bounds cfg lanes densities _ _ hmm) p hp

/-- Witness for C2 at the default configuration and the demand vector
(100, 0, 0, 0): the validator accepts the configuration and the north
allocation (39) satisfies the bounds. -/
theorem c2_allocation_within_bounds_witness :
    validateConfig defaultLanes defaultConfig = true ∧
    (defaultConfig.minGreen ≤ (39 : ℚ) ∧ (39 : ℚ) ≤ defaultConfig.maxGreen) := by
  have hv : validateConfig defaultLanes defaultConfig = true := by
    norm_num +decide [validateConfig, defaultConfig, defaultLanes]
  refine ⟨hv, ?_⟩
  have hb := (c2_allocation_within_bounds defaultConfig defaultLanes
    [("north", 100), ("south", 0), ("east", 0), ("west", 0)] hv).2
  have he : (computeGreenTimes defaultConfig defaultLanes
      [("north", 100), ("south", 0), ("east", 0), ("west", 0)]).1 =
      [("north", 39), ("south", 10), ("east", 10), ("west", 10)] := by
    norm_num +decide [computeGreenTimes, redistribute, redistStep, sortByDensityDesc,
      insertDesc, constrainedAlloc, availableTimeOf, dLookup, aUpdate, qsign,
      defaultConfig, defaultLanes]
  have hm : (("north", (39 : ℚ)) : Lane × ℚ) ∈ (computeGreenTimes defaultConfig
      defaultLanes [("north", 100), ("south", 0), ("east", 0), ("west", 0)]).1 := by
    rw [he]
    exact List.mem_cons_self _ _
  exact hb ("north", 39) hm

/-- Specification of the reduce in _computeSignals: the selected element is
a maximizer of v over the traversed list, and it is the last maximizer —
every element strictly after it has a strictly smaller value (on equal
values the reduce moves to the later element). -/
theorem foldl_pickMax_spec (v : Lane → ℚ) :
    ∀ (ks : List Lane) (k : Lane),
      ∃ pre post,
        k :: ks = pre ++ (ks.foldl (fun a b => if v a > v b then a else b) k) :: post ∧
        (∀ x ∈ k :: ks, v x ≤ v (ks.foldl (fun a b => if v a > v b then a else b) k)) ∧
        (∀ x ∈ post, v x < v (ks.foldl (fun a b => if v a > v b then a else b) k)) := by
  intro ks
  induction ks with
  | nil =>
    intro k
    exact ⟨[], [], rfl, by simp, by simp⟩
  | cons b bs ih =>
    intro k
    rw [List.foldl_cons]
    by_cases hkb : v k > v b
    · rw [if_pos hkb]
      obtain ⟨pre, post, hdec, hmax, hpost⟩ := ih k
      cases pre with
      | nil =>
        simp only [List.nil_append] at hdec
        injection hdec with h1 h2
        refine ⟨[], b :: bs, ?_, ?_, ?_⟩
        · simp [← h1]
        · intro x hx
          rcases List.mem_cons.mp hx with rfl | hx2
          · rw [← h1]
          · rcases List.mem_cons.mp hx2 with rfl | hx3
            · rw [← h1]
              exact le_of_lt hkb
            · exact hmax x (List.mem_cons_of_mem _ hx3)
        · intro x hx
          rcases List.mem_cons.mp hx with rfl | hx2
          · rw [← h1]
            exact hkb
          · exact hpost x (h2 ▸ hx2)
      | cons p pre2 =>
        rw [List.cons_append] at hdec
        injection hdec with h1 h2
        refine ⟨k :: b :: pre2, post, ?_, ?_, ?_⟩
        · rw [List.cons_append, List.cons_append, ← h2]
        · intro x hx
          rcases List.mem_cons.mp hx with rfl | hx2
          · exact hmax x (List.mem_cons_self _ _)
          · rcases List.mem_cons.mp hx2 with rfl | hx3
            · exact le_trans (le_of_lt hkb) (hmax k (List.mem_cons_self _ _))
            · exact hmax x (List.mem_cons_of_mem _ hx3)
        · exact hpost
    · rw [if_neg hkb]
      obtain ⟨pre, post, hdec, hmax, hpost⟩ := ih b
      refine ⟨k :: pre, post, ?_, ?_, ?_⟩
      · rw [List.cons_append, ← hdec]
      · intro x hx
        rcases List.mem_cons.mp hx with rfl | hx2
        · exact le_trans (not_lt.mp hkb) (hmax b (List.mem_cons_self _ _))
        · exact hmax x hx2
      · exact hpost

/-- Unfolding of computeSignals on an object with a non-empty key list. -/
theorem computeSignals_cons (gt : List (Lane × ℚ)) (k : Lane) (ks : List Lane)
    (h : gt.map (fun p => p.1) = k :: ks) :
    computeSignals gt = (k :: ks).map (fun lane =>
      (lane,
        if lane = ks.foldl (fun a b => if dLookup gt a > dLookup gt b then a else b) k
        then "GREEN" else "RED")) := by
  unfold computeSignals
  rw [h]

/-- The keys of the GREEN entries of the signal map are the keys equal to
the selected lane. -/
theorem filter_green_map (m : Lane) : ∀ (ls : List Lane),
    (((ls.map (fun lane => (lane, if lane = m then "GREEN" else "RED"))).filter
        (fun p => p.2 == "GREEN")).map (fun p => p.1)) =
      ls.filter (fun lane => lane == m) := by
  intro ls
  induction ls with
  | nil => rfl
  | cons a ls ih =>
    by_cases ham : a = m
    · simp [ham, ih]
    · simp [ham, ih]

/-- On a duplicate-free list, filtering for one of its members yields
exactly that one element. -/
theorem filter_eq_singleton_of_nodup :
    ∀ (ls : List Lane) (m : Lane), ls.Nodup → m ∈ ls →
      ls.filter (fun x => x == m) = [m] := by
  intro ls
  induction ls with
  | nil => intro m _ hm; cases hm
  | cons a ls ih =>
    intro m hnd hm
    rcases List.mem_cons.mp hm with rfl | hm2
    · have hnotin : m ∉ ls := (List.nodup_cons.mp hnd).1
      have hzero : ls.filter (fun x => x == m) = [] := by
        refine List.filter_eq_nil_iff.mpr ?_
        intro x hx
        simp only [beq_iff_eq]
        intro he
        exact hnotin (he ▸ hx)
      simp [List.filter_cons, hzero]
    · have ham : (a == m) = false := by
        simp only [beq_eq_false_iff_ne]
        intro he
        exact (List.nodup_cons.mp hnd).1 (he ▸ hm2)
      simp [List.filter_cons, ham, ih m (List.nodup_cons.mp hnd).2 hm2]

/-- C6 amended: for every non-empty green-time object with duplicate-free
keys there is a selected lane m such that the signal snapshot marks every
key RED except m which is GREEN (so exactly one lane is green), m carries a
maximal allocation, and m is the LAST maximizer in key enumeration order:
every key after it is strictly smaller.  Ties are therefore broken toward
the lane latest in enumeration order, not the earliest. -/
theorem c6_amended_unique_green_is_last_argmax (gt : List (Lane × ℚ))
    (hne : gt ≠ []) (hnd : (gt.map (fun p => p.1)).Nodup) :
    ∃ m pre post,
      gt.map (fun p => p.1) = pre ++ m :: post ∧
      (∀ k ∈ gt.map (fun p => p.1), dLookup gt k ≤ dLookup gt m) ∧
      (∀ k ∈ post, dLookup gt k < dLookup gt m) ∧
      computeSignals gt = (gt.map (fun p => p.1)).map
        (fun lane => (lane, if lane = m then "GREEN" else "RED")) ∧
      ((computeSignals gt).filter (fun p => p.2 == "GREEN")).map (fun p => p.1) = [m] := by
  cases hgt : gt.map (fun p => p.1) with
  | nil => exact absurd (List.map_eq_nil_iff.mp hgt) hne
  | cons k ks =>
    obtain ⟨pre, post, hdec, hmax, hpost⟩ := foldl_pickMax_spec (dLookup gt) ks k
    refine ⟨ks.foldl (fun a b => if dLookup gt a > dLookup gt b then a else b) k,
      pre, post, ?_, ?_, ?_, ?_, ?_⟩
    · exact hdec
    · exact hmax
    · exact hpost
    · rw [computeSignals_cons gt k ks hgt]
    · rw [computeSignals_cons gt k ks hgt, filter_green_map]
      refine filter_eq_singleton_of_nodup _ _ ?_ ?_
      · rw [hgt] at hnd
        exact hnd
      · rw [hdec]
        exact List.mem_append_right _ (List.mem_cons_self _ _)

/-- Witness for C6 amended at the two-lane object (north 5, south 7): both
hypotheses hold and the conclusion follows from the theorem. -/
theorem c6_amended_unique_green_is_last_argmax_witness :
    (([("north", (5 : ℚ)), ("south", 7)] : List (Lane × ℚ)) ≠ []) ∧
    (([("north", (5 : ℚ)), ("south", 7)] : List (Lane × ℚ)).map (fun p => p.1)).Nodup ∧
    (∃ m pre post,
      ([("north", (5 : ℚ)), ("south", 7)] : List (Lane × ℚ)).map (fun p => p.1) =
        pre ++ m :: post ∧
      (∀ k ∈ ([("north", (5 : ℚ)), ("south", 7)] : List (Lane × ℚ)).map (fun p => p.1),
        dLookup [("north", (5 : ℚ)), ("south", 7)] k ≤
          dLookup [("north", (5 : ℚ)), ("south", 7)] m) ∧
      (∀ k ∈ post, dLookup [("north", (5 : ℚ)), ("south", 7)] k <
          dLookup [("north", (5 : ℚ)), ("south", 7)] m) ∧
      computeSignals [("north", (5 : ℚ)), ("south", 7)] =
        (([("north", (5 : ℚ)), ("south", 7)] : List (Lane × ℚ)).map (fun p => p.1)).map
          (fun lane => (lane, if lane = m then "GREEN" else "RED")) ∧
      ((computeSignals [("north", (5 : ℚ)), ("south", 7)]).filter
          (fun p => p.2 == "GREEN")).map (fun p => p.1) = [m]) :=
  ⟨by decide, by decide,
    c6_amended_unique_green_is_last_argmax _ (by decide) (by decide)⟩
